import Mathlib

/-!
Verification of the asset-synchronization pipeline of bricksdeal-api
(`tools/python/bricks_deal_crawl/catalog/extract.py` and
`tools/python/bricks_deal_crawl/catalog/continue_extract.py`).

The Python code is shallowly embedded: pure helpers become Lean functions on
`String`/`List Char`, the mutable `image_mapping` dict becomes an association
list updated by explicit insertion, the proxy manager becomes a record threaded
through the batch fold, and the external world (HTTP outcomes, filesystem
probes, object-store acceptance, wall clock) is a record of functions `Env`
over which theorems quantify.  Exceptions that the Python code does not catch
are modelled with `Option` results (`none` = the run aborts).
-/

/-! ## String utilities mirroring the Python string/regex operations -/

/-- Does the character list `pat` occur at the start of the second list?
Models Python substring matching at one position. -/
def listStarts : List Char → List Char → Bool
  | [], _ => true
  | _ :: _, [] => false
  | a :: as, b :: bs => a = b && listStarts as bs

/-- Helper for `strContains`: does `pat` occur anywhere in the list? -/
def containsAux (pat : List Char) : List Char → Bool
  | [] => listStarts pat []
  | c :: rest => listStarts pat (c :: rest) || containsAux pat rest

/-- Models the Python `in` operator on strings: `strContains s pat` is
`pat in s`. -/
def strContains (s pat : String) : Bool :=
  containsAux pat.toList s.toList

/-- Models Python `str.endswith`. -/
def strEndsWith (s pat : String) : Bool :=
  listStarts pat.toList.reverse s.toList.reverse

/-- Models Python `str.lower()` (ASCII, as used on the catalog data). -/
def toLowerStr (s : String) : String :=
  String.mk (s.toList.map Char.toLower)

/-- Characters kept by the regex `[^a-z0-9-]` removal in
`create_seo_friendly_filename` (applied after lowercasing). -/
def isSlugChar (c : Char) : Bool :=
  (('a' ≤ c && c ≤ 'z') || ('0' ≤ c && c ≤ '9') || c = '-')

/-- Characters kept by the regex `[^a-zA-Z0-9-]` substitution in
`test_multiple_images` (uppercase allowed there). -/
def isAlnumHyphen (c : Char) : Bool :=
  (('a' ≤ c && c ≤ 'z') || ('A' ≤ c && c ≤ 'Z') || ('0' ≤ c && c ≤ '9') || c = '-')

/-- Models `re.sub(r'-+', '-', s)`: collapse runs of hyphens to one. -/
def collapseHyphens : List Char → List Char
  | [] => []
  | [c] => [c]
  | c1 :: c2 :: rest =>
    if c1 = '-' && c2 = '-' then collapseHyphens (c2 :: rest)
    else c1 :: collapseHyphens (c2 :: rest)

/-- Models Python `str.strip('-')`. -/
def stripHyphens (cs : List Char) : List Char :=
  ((cs.dropWhile (fun c => c = '-')).reverse.dropWhile (fun c => c = '-')).reverse

/-- The name-cleaning block of `create_seo_friendly_filename`
(extract.py lines 314-328): lowercase, spaces to hyphens, drop characters
outside `[a-z0-9-]`, collapse hyphen runs, strip hyphens, cap at 50. -/
def clean_name (name : String) : String :=
  let cs := name.toList.map Char.toLower
  let cs := cs.map (fun c => if c = ' ' then '-' else c)
  let cs := cs.filter isSlugChar
  let cs := collapseHyphens cs
  let cs := stripHyphens cs
  String.mk (cs.take 50)

/-- Index of the last '.' in the list, if any. -/
def lastDotIndex (cs : List Char) : Option Nat :=
  ((List.range cs.length).filter (fun i => cs.getD i ' ' = '.')).getLast?

/-- Models `os.path.splitext` on a basename: split at the final dot unless
every character before it is itself a dot. -/
def splitext (s : String) : String × String :=
  let cs := s.toList
  match lastDotIndex cs with
  | none => (s, "")
  | some i =>
    if (cs.take i).all (fun c => c = '.') then (s, "")
    else (String.mk (cs.take i), String.mk (cs.drop i))

/-- The characters following the first `":" "//"` scheme separator, if one is
present. -/
def afterScheme : List Char → Option (List Char)
  | [] => none
  | c :: rest =>
    if listStarts [':', '/', '/'] (c :: rest) then some (rest.drop 2)
    else afterScheme rest

/-- Models `urllib.parse.urlparse(url).path`: strip fragment and query, then
drop the scheme and network location when a scheme is present. -/
def urlPath (url : String) : String :=
  let cs := url.toList.takeWhile (fun c => c ≠ '#')
  let cs := cs.takeWhile (fun c => c ≠ '?')
  match afterScheme cs with
  | none => String.mk cs
  | some rest => String.mk (rest.dropWhile (fun c => c ≠ '/'))

/-- Models `os.path.basename`: the part after the last '/'. -/
def pathBasename (p : String) : String :=
  String.mk ((p.toList.reverse.takeWhile (fun c => c ≠ '/')).reverse)

/-- Models `"-".join(components)`. -/
def joinHyphen : List String → String
  | [] => ""
  | [s] => s
  | s :: rest => s ++ "-" ++ joinHyphen rest

/-- The extension chosen by `create_seo_friendly_filename`
(extract.py lines 293-304): extension of the URL basename, defaulting to
".jpg" when absent. -/
def url_extension (url : String) : String :=
  let path := urlPath url
  let filename := pathBasename path
  let filename := String.mk (filename.toList.takeWhile (fun c => c ≠ '?'))
  let ext := (splitext filename).2
  if ext = "" then ".jpg" else ext

/-- The key deriver, `create_seo_friendly_filename(url, prefix, name)`
(extract.py lines 285-336).  Components: the prefix when nonempty, then the
cleaned name when the name is nonempty (even if cleaning leaves it empty),
joined by hyphens, followed by the extension. -/
def create_seo_friendly_filename (url pfx name : String) : String :=
  let ext := url_extension url
  let comps := (if pfx ≠ "" then [pfx] else []) ++ (if name ≠ "" then [clean_name name] else [])
  joinHyphen comps ++ ext

/-! ## The occurrence-index suffixing demonstrated by `test_multiple_images`
(extract.py lines 852-903). -/

/-- The view suffix for the i-th image of an item: "" for the first, then
"-alt", "-back", "-side", and "-viewN" from the fifth on. -/
def view_suffix (i : Nat) : String :=
  if i = 0 then ""
  else if i = 1 then "-alt"
  else if i = 2 then "-back"
  else if i = 3 then "-side"
  else "-view" ++ toString i

/-- Filename generated for the i-th image of a set in `test_multiple_images`
(lines 854-880): lowercase theme and name, the item id, the view suffix, then
the `[^a-zA-Z0-9-]` cleanup, hyphen collapsing and stripping, and ".jpg". -/
def test_set_filename (themeName itemName itemId : String) (i : Nat) : String :=
  let themePart := if themeName ≠ "" then toLowerStr themeName ++ "-" else ""
  let raw := "lego-" ++ themePart ++ toLowerStr itemName ++ "-" ++ itemId ++ view_suffix i
  let cs := raw.toList.map (fun c => if isAlnumHyphen c then c else '-')
  let cs := collapseHyphens cs
  let cs := stripHyphens cs
  String.mk cs ++ ".jpg"

/-! ## The mapping cache as an insertion-ordered association list.

Values are `Option String` because `rebuild_image_mapping` with
`force_upload=True` can store Python `None` (the result of a failed upload)
as a mapping value; everywhere else values are `some url`. -/

/-- The `image_mapping` dict: source URL to Cloudflare URL (or Python None). -/
abbrev Mapping := List (String × Option String)

/-- Dict lookup: `getVal m k` is `m[k]` as an `Option`; `isSome` models
the Python `k in m` test. -/
def getVal : Mapping → String → Option (Option String)
  | [], _ => none
  | (k, v) :: rest, key => if k = key then some v else getVal rest key

/-- Dict assignment `m[k] = v`: overwrite in place or append. -/
def minsert : Mapping → String → Option String → Mapping
  | [], k, v => [(k, v)]
  | (k0, v0) :: rest, k, v =>
    if k0 = k then (k0, v) :: rest else (k0, v0) :: minsert rest k v

/-- Count occurrences of a string in a list (used for fetch/upload logs). -/
def countOccur (u : String) : List String → Nat
  | [] => 0
  | x :: rest => (if x = u then 1 else 0) + countOccur u rest

example : create_seo_friendly_filename
    "https://cdn.rebrickable.com/media/sets/10353-1.jpg" "lego-icons-" "Tiny Plants"
    = "lego-icons--tiny-plants.jpg" := by decide

/-! ## Proxy Pool Manager (`ProxyManager`, extract.py lines 50-237).

State is threaded explicitly; `datetime.datetime.now()` is modelled by the
single run timestamp `Env.now` (the pipeline's claims do not depend on the
clock). -/

/-- The mutable state of `ProxyManager`: the proxy list, the set of working
proxies (as an insertion-ordered list), the failed-proxy dict
(proxy, failure count, last failure time), the two behaviour flags, and the
rotation index. -/
structure PM where
  proxies : List String
  working : List String
  failedMap : List (String × Nat × Nat)
  useProxies : Bool
  forceOwnIp : Bool
  currentIndex : Nat
deriving DecidableEq

/-- Lookup in the `failed_proxies` dict. -/
def lookupFailed : List (String × Nat × Nat) → String → Option (Nat × Nat)
  | [], _ => none
  | (q, c, t) :: rest, p => if q = p then some (c, t) else lookupFailed rest p

/-- The rotation scan of `get_proxy` (lines 149-165): walk the proxy list from
the current index, skipping proxies that failed more than twice within the
last hour; gives up after as many skips as there are proxies.  Returns the
chosen proxy (if any) and the updated rotation index. -/
def scanProxy (proxies : List String) (fm : List (String × Nat × Nat)) (now : Nat) :
    Nat → Nat → Option String × Nat
  | idx, 0 => (none, idx)
  | idx, fuel + 1 =>
    let candidate := proxies.getD (idx % proxies.length) ""
    match lookupFailed fm candidate with
    | some (c, t) =>
      if c > 2 && now - t < 3600 then scanProxy proxies fm now (idx + 1) fuel
      else (some candidate, idx + 1)
    | none => (some candidate, idx + 1)

/-- `ProxyManager.get_proxy` (lines 128-191).  Returns `none` (the Python
empty dict) when proxy use is disabled or no proxy is available; otherwise a
working proxy in round-robin order, or the next not-recently-failed proxy. -/
def get_proxy (pm : PM) (now : Nat) : Option String × PM :=
  if !pm.useProxies || pm.proxies.isEmpty then (none, pm)
  else if !pm.working.isEmpty then
    let wl := pm.working
    (some (wl.getD (pm.currentIndex % wl.length) ""),
     { pm with currentIndex := pm.currentIndex + 1 })
  else
    let r := scanProxy pm.proxies pm.failedMap now pm.currentIndex pm.proxies.length
    (r.1, { pm with currentIndex := r.2 })

/-- Insert into the `working_proxies` set. -/
def insertIfAbsent (l : List String) (p : String) : List String :=
  if l.contains p then l else l ++ [p]

/-- Delete from the `failed_proxies` dict. -/
def removeFailed : List (String × Nat × Nat) → String → List (String × Nat × Nat)
  | [], _ => []
  | (q, c, t) :: rest, p =>
    if q = p then removeFailed rest p else (q, c, t) :: removeFailed rest p

/-- Increment (or create) a `failed_proxies` entry with the current time. -/
def bumpFailed : List (String × Nat × Nat) → String → Nat → List (String × Nat × Nat)
  | [], p, now => [(p, 1, now)]
  | (q, c, t) :: rest, p, now =>
    if q = p then (q, c + 1, now) :: rest else (q, c, t) :: bumpFailed rest p now

/-- `ProxyManager.mark_proxy_success` (lines 193-210). -/
def mark_proxy_success (pm : PM) (p : String) : PM :=
  if p = "" || !pm.useProxies then pm
  else { pm with working := insertIfAbsent pm.working p,
                 failedMap := removeFailed pm.failedMap p }

/-- `ProxyManager.mark_proxy_failure` (lines 212-237). -/
def mark_proxy_failure (pm : PM) (p : String) (now : Nat) : PM :=
  if p = "" || !pm.useProxies then pm
  else { pm with working := pm.working.filter (fun q => !(q == p)),
                 failedMap := bumpFailed pm.failedMap p now }

/-! ## The external world -/

/-- Outcome of one HTTP GET attempt, matching the except-clauses of
`download_and_optimize_image`: success, `requests.exceptions.ProxyError`,
`Timeout`, other `RequestException`, or any other exception (e.g. image
decoding). -/
inductive AttemptOutcome
  | ok
  | proxyError
  | timeout
  | requestError
  | otherError
deriving DecidableEq

/-- The external world: catalog theme lookup (`get_theme_name` reads
themes.csv), filesystem probes, the outcome of the retry-indexed HTTP GET for
a URL, object-store credentials and acceptance, the public base URL, the run
timestamp, the proxies file content, the files found by `os.listdir` during
`rebuild_image_mapping`, and the candidate source URLs its regex patterns
reconstruct for a stored filename (abstracted as a function; every theorem
below holds for each instantiation). -/
structure Env where
  themeName : String → String
  fileExists : String → Bool
  attempt : String → Nat → AttemptOutcome
  hasCredentials : Bool
  storeAccepts : String → Bool
  publicUrl : String
  now : Nat
  proxyList : List String
  imageFiles : List String
  rebuildCands : Bool → String → List String

/-- `upload_to_cloudflare_r2` (extract.py lines 465-509): `none` when the
store credentials are absent or the store rejects the object (any boto3
exception), otherwise the public URL of the uploaded key. -/
def upload_to_cloudflare_r2 (env : Env) (objectKey : String) : Option String :=
  if !env.hasCredentials then none
  else if env.storeAccepts objectKey then some (env.publicUrl ++ "/" ++ objectKey)
  else none

/-- The retry loop of `download_and_optimize_image` (extract.py lines
338-463), with `fuel` the remaining iterations of `while retry_count <
max_retries`.  Returns whether the download succeeded, the updated proxy
manager state, and the list of URLs actually requested over the network (one
entry per HTTP GET issued).  When no proxy is available and `force_own_ip` is
not set the task is skipped with no request. -/
def download_attempts (env : Env) (url : String) : PM → Nat → Nat → Bool × PM × List String
  | pm, _, 0 => (false, pm, [])
  | pm, retry, fuel + 1 =>
    let g : Option (Option String) × PM :=
      if pm.useProxies then
        let gp := get_proxy pm env.now
        match gp.1 with
        | some p => (some (some p), gp.2)
        | none => (if gp.2.forceOwnIp then some none else none, gp.2)
      else
        (if pm.forceOwnIp then some none else none, pm)
    match g.1 with
    | none => (false, g.2, [])
    | some proxyOpt =>
      match env.attempt url retry with
      | .ok =>
        let pm2 := match proxyOpt with | some p => mark_proxy_success g.2 p | none => g.2
        (true, pm2, [url])
      | .otherError =>
        let r := download_attempts env url g.2 (retry + 1) fuel
        (r.1, r.2.1, url :: r.2.2)
      | _ =>
        let pm2 := match proxyOpt with
          | some p => mark_proxy_failure g.2 p env.now
          | none => g.2
        let r := download_attempts env url pm2 (retry + 1) fuel
        (r.1, r.2.1, url :: r.2.2)

/-- `download_and_optimize_image`: the retry loop entered with
`retry_count = 0` and `max_retries = 3`. -/
def download_and_optimize_image (env : Env) (url : String) (pm : PM) :
    Bool × PM × List String :=
  download_attempts env url pm 0 3

/-! ## Catalog rows and the task window of `process_image_urls`
(extract.py lines 511-583). -/

/-- A row of `sets.csv` (the fields the pipeline reads). -/
structure SetRow where
  set_num : String
  name : String
  theme_id : String
  img_url : String
deriving DecidableEq

/-- A row of `minifigs.csv`. -/
structure MinifigRow where
  fig_num : String
  name : String
  img_url : String
deriving DecidableEq

/-- Whether an image task came from sets.csv or minifigs.csv. -/
inductive ItemKind
  | set
  | minifig
deriving DecidableEq

/-- One entry of `all_urls`: the URL plus the row data the loop needs. -/
structure ImgTask where
  url : String
  name : String
  itemId : String
  themeId : String
  kind : ItemKind
deriving DecidableEq

/-- `is_valid_image_url` (extract.py lines 273-283). -/
def is_valid_image_url (url : String) : Bool :=
  if url = "" then false
  else
    let path := toLowerStr (urlPath url)
    [".jpg", ".jpeg", ".png", ".gif", ".webp", ".bmp"].any (fun e => strEndsWith path e)

/-- The sets.csv scan (lines 538-551): keep rows with a valid image URL that
is not already a Cloudflare URL. -/
def scanSetRows (rows : List SetRow) : List ImgTask :=
  rows.filterMap (fun r =>
    if is_valid_image_url r.img_url && !(strContains r.img_url "images.bricksdeal.com")
    then some { url := r.img_url, name := r.name, itemId := r.set_num,
                themeId := r.theme_id, kind := ItemKind.set }
    else none)

/-- The minifigs.csv scan (lines 554-566). -/
def scanMinifigRows (rows : List MinifigRow) : List ImgTask :=
  rows.filterMap (fun r =>
    if is_valid_image_url r.img_url && !(strContains r.img_url "images.bricksdeal.com")
    then some { url := r.img_url, name := r.name, itemId := r.fig_num,
                themeId := "", kind := ItemKind.minifig }
    else none)

/-- Orchestrator configuration: the relevant arguments of
`process_image_urls`. -/
structure Cfg where
  minifigsOnly : Bool
  dryRun : Bool
  limit : Option Nat
  startIndex : Nat
  batchSize : Nat
deriving DecidableEq

/-- `all_urls` before windowing (lines 569-572): set tasks (unless
minifigs-only) followed by minifig tasks, in stable source order. -/
def allTasks (cfg : Cfg) (setRows : List SetRow) (minifigRows : List MinifigRow) : List ImgTask :=
  (if !cfg.minifigsOnly then scanSetRows setRows else []) ++ scanMinifigRows minifigRows

/-- The limit step (lines 575-576): applied only when a positive limit is
given. -/
def applyLimit (lim : Option Nat) (l : List ImgTask) : List ImgTask :=
  match lim with
  | some n => if n > 0 then l.take n else l
  | none => l

/-- The batch window (lines 579-581): the slice
`all_urls[start_index : start_index + batch_size]`, applied only when
`batch_size > 0`. -/
def applyBatch (startIndex batchSize : Nat) (l : List ImgTask) : List ImgTask :=
  if batchSize > 0 then (l.drop startIndex).take batchSize else l

/-- The task window actually iterated by the processing loop.  Note that the
mapping cache is not consulted here: already-mapped URLs are skipped inside
the loop, after windowing. -/
def buildWindow (cfg : Cfg) (setRows : List SetRow) (minifigRows : List MinifigRow) : List ImgTask :=
  applyBatch cfg.startIndex cfg.batchSize (applyLimit cfg.limit (allTasks cfg setRows minifigRows))

/-! ## The per-task body of the processing loop (extract.py lines 591-669). -/

/-- One record of `failed_downloads`. -/
structure FailureRec where
  url : String
  reason : String
deriving DecidableEq

/-- The loop state of `process_image_urls`: the in-memory mapping, the proxy
manager, the three counters, this run's failure records, and logs of the
network fetches and upload calls performed (each entry tagged with the source
URL of the task that caused it). -/
structure BatchState where
  mapping : Mapping
  pm : PM
  successful : Nat
  failed : Nat
  skipped : Nat
  failures : List FailureRec
  fetchLog : List String
  uploadLog : List String
deriving DecidableEq

/-- The SEO filename for a task (lines 603-613): theme-prefixed for sets,
`lego-minifig-` for minifigs. -/
def taskFilename (env : Env) (t : ImgTask) : String :=
  match t.kind with
  | .set => create_seo_friendly_filename t.url ("lego-" ++ env.themeName t.themeId ++ "-") t.name
  | .minifig => create_seo_friendly_filename t.url "lego-minifig-" t.name

/-- The object key for a task (lines 627-630 and 650-653). -/
def taskObjectKey (t : ImgTask) (filename : String) : String :=
  match t.kind with
  | .set => "catalog/set/" ++ filename
  | .minifig => "catalog/minifig/" ++ filename

/-- One iteration of the processing loop (lines 591-669): skip tasks whose
URL is already mapped; in dry-run record a hypothetical mapping; otherwise
download (unless the local file already exists), upload, and either record
the new mapping or append a failure record. -/
def processTask (env : Env) (cfg : Cfg) (st : BatchState) (t : ImgTask) : BatchState :=
  if (getVal st.mapping t.url).isSome then
    { st with successful := st.successful + 1, skipped := st.skipped + 1 }
  else
    let filename := taskFilename env t
    let outputPath := "output/catalog-images/" ++ filename
    let objectKey := taskObjectKey t filename
    if cfg.dryRun then
      let cfUrl := env.publicUrl ++ "/" ++ objectKey
      { st with mapping := minsert st.mapping t.url (some cfUrl),
                successful := st.successful + 1 }
    else
      let dl := if env.fileExists outputPath then (true, st.pm, ([] : List String))
                else download_and_optimize_image env t.url st.pm
      let st1 := { st with pm := dl.2.1, fetchLog := st.fetchLog ++ dl.2.2 }
      if dl.1 then
        match upload_to_cloudflare_r2 env objectKey with
        | some cfUrl =>
          { st1 with uploadLog := st1.uploadLog ++ [t.url],
                     mapping := minsert st1.mapping t.url (some cfUrl),
                     successful := st1.successful + 1 }
        | none =>
          { st1 with uploadLog := st1.uploadLog ++ [t.url],
                     failed := st1.failed + 1,
                     failures := st1.failures ++ [⟨t.url, "Failed to upload to Cloudflare R2"⟩] }
      else
        { st1 with failed := st1.failed + 1,
                   failures := st1.failures ++ [⟨t.url, "Failed to download/process"⟩] }

/-- Result of one `process_image_urls` run: the window it iterated and the
final loop state (whose `mapping` and `failures` the function then persists). -/
structure PipelineResult where
  window : List ImgTask
  final : BatchState
deriving DecidableEq

/-- The initial loop state. -/
def initBatchState (m : Mapping) (pm : PM) : BatchState :=
  { mapping := m, pm := pm, successful := 0, failed := 0, skipped := 0,
    failures := [], fetchLog := [], uploadLog := [] }

/-- `process_image_urls` (extract.py lines 511-701) given the already-loaded
mapping: build the task window from the catalog rows and fold the loop body
over it. -/
def process_image_urls (env : Env) (cfg : Cfg) (setRows : List SetRow)
    (minifigRows : List MinifigRow) (m : Mapping) (pm : PM) : PipelineResult :=
  let window := buildWindow cfg setRows minifigRows
  { window := window, final := window.foldl (processTask env cfg) (initBatchState m pm) }

/-! ## `rebuild_image_mapping` (extract.py lines 905-1074).

Only its effect on the mapping ledger is needed by the claims.  The
regex-based reconstruction of candidate source URLs from a stored filename
(lines 970-1059) is supplied by `Env.rebuildCands`; the theorems hold for
every instantiation.  The reverse map can have the Python `None` key (a
failed forced upload), hence `Option String` keys. -/

/-- Lookup in the `reverse_mapping` dict (Cloudflare URL, or None, to source
URL). -/
def revLookup : List (Option String × String) → Option String → Option String
  | [], _ => none
  | (k, v) :: rest, key => if k = key then some v else revLookup rest key

/-- Assignment into the `reverse_mapping` dict. -/
def revInsert : List (Option String × String) → Option String → String →
    List (Option String × String)
  | [], k, v => [(k, v)]
  | (k0, v0) :: rest, k, v =>
    if k0 = k then (k0, v) :: rest else (k0, v0) :: revInsert rest k v

/-- `reverse_mapping = {v: k for k, v in image_mapping.items()}` (line 931). -/
def buildReverse (m : Mapping) : List (Option String × String) :=
  m.foldl (fun rev kv => revInsert rev kv.2 kv.1) []

/-- The candidate-insertion loop (lines 998-1005 and the analogous blocks):
insert the first candidate source URL that is not yet mapped, provided the
Cloudflare URL is not already a reverse-mapping key; then stop. -/
def tryInsertFirst (m : Mapping) (rev : List (Option String × String))
    (cf : Option String) : List String → Mapping × List (Option String × String)
  | [] => (m, rev)
  | orig :: rest =>
    if (getVal m orig).isNone && (revLookup rev cf).isNone
    then (minsert m orig cf, revInsert rev cf orig)
    else tryInsertFirst m rev cf rest

/-- Processing of one stored image file (lines 939-1059): classify it as
set or minifig from its name, build its Cloudflare URL, skip it when already
reverse-mapped (unless force-uploading), re-upload when forced (the stored
value is then the upload result, possibly Python None), and insert the first
eligible reconstructed source URL. -/
def rebuild_file_step (env : Env) (force : Bool)
    (acc : Mapping × List (Option String × String)) (file : String) :
    Mapping × List (Option String × String) :=
  let m := acc.1
  let rev := acc.2
  let lowname := toLowerStr file
  let isMini := strContains lowname "minifig" || strContains lowname "fig-"
  let objKey := (if isMini then "catalog/minifig/" else "catalog/set/") ++ file
  let cfUrl0 := env.publicUrl ++ "/" ++ objKey
  if (revLookup rev (some cfUrl0)).isSome && !force then acc
  else
    let cf : Option String := if force then upload_to_cloudflare_r2 env objKey else some cfUrl0
    tryInsertFirst m rev cf (env.rebuildCands isMini file)

/-- `rebuild_image_mapping`: fold the per-file step over the files found in
the images directory, starting from the loaded mapping and its reverse. -/
def rebuild_image_mapping (env : Env) (force : Bool) (m : Mapping) : Mapping :=
  (env.imageFiles.foldl (rebuild_file_step env force) (m, buildReverse m)).1

/-! ## `update_csv_with_new_urls` (extract.py lines 723-791). -/

/-- Rewrite of one sets.csv row (lines 751-757): substitute the mapped URL
when present.  A Python `None` mapping value is written back as an empty
field by `csv.DictWriter`. -/
def update_set_row (m : Mapping) (r : SetRow) : SetRow :=
  match getVal m r.img_url with
  | some (some y) => { r with img_url := y }
  | some none => { r with img_url := "" }
  | none => r

/-- Rewrite of one minifigs.csv row (lines 780-786). -/
def update_fig_row (m : Mapping) (r : MinifigRow) : MinifigRow :=
  match getVal m r.img_url with
  | some (some y) => { r with img_url := y }
  | some none => { r with img_url := "" }
  | none => r

/-! ## The checkpoint controller (continue_extract.py lines 17-47). -/

/-- The two item classes tracked by the progress file. -/
inductive ItemClass
  | minifigs
  | sets
deriving DecidableEq

/-- The content of `extract_progress.json`: one cursor and one total per
item class. -/
structure Progress where
  minifigsLast : Nat
  minifigsTotal : Nat
  setsLast : Nat
  setsTotal : Nat
deriving DecidableEq

/-- `progress[item_type]["last_index"]`. -/
def Progress.lastIdx (p : Progress) : ItemClass → Nat
  | .minifigs => p.minifigsLast
  | .sets => p.setsLast

/-- `progress[item_type]["total_processed"]`. -/
def Progress.totalIdx (p : Progress) : ItemClass → Nat
  | .minifigs => p.minifigsTotal
  | .sets => p.setsTotal

/-- The default progress data (continue_extract.py lines 27-36). -/
def defaultProgress : Progress :=
  { minifigsLast := 0, minifigsTotal := 0, setsLast := 0, setsTotal := 0 }

/-- `load_progress` (lines 17-36): a missing file, and also an unreadable
one (`json.JSONDecodeError`/`IOError` are caught with only a warning), both
yield the default progress; the run continues. -/
def load_progress : Option (Option Progress) → Progress
  | some (some p) => p
  | some none => defaultProgress
  | none => defaultProgress

/-- The checkpoint update of `continue_extraction` (lines 99-101): both
counters advance by the requested batch size, whatever the extraction did. -/
def advanceProgress (p : Progress) : ItemClass → Nat → Progress
  | .minifigs, bs => { p with minifigsLast := p.minifigsLast + bs,
                              minifigsTotal := p.minifigsTotal + bs }
  | .sets, bs => { p with setsLast := p.setsLast + bs,
                          setsTotal := p.setsTotal + bs }

/-! ## Durable state and the CLI dispatch of `extract.main`
(extract.py lines 1529-1616). -/

/-- The durable files and effect logs of one system run.  A file is
`none` when missing, `some none` when present but unreadable (json.load
raises), `some (some v)` when readable. -/
structure SysState where
  mappingFile : Option (Option Mapping)
  setsCsv : List SetRow
  minifigsCsv : List MinifigRow
  progressFile : Option (Option Progress)
  failLog : List FailureRec
  fetchLog : List String
  uploadLog : List String
deriving DecidableEq

/-- The mapping loaded by `process_image_urls`/`update_csv_with_new_urls`
after the readability check: an absent file yields the empty mapping. -/
def mappingOf : Option (Option Mapping) → Mapping
  | some (some m) => m
  | _ => []

/-- `update_csv_with_new_urls` at the state level: reads the whole CSV,
writes every row to a new file and atomically replaces the original
(`os.replace`), modelled as the wholesale update of each CSV to the mapped
row list.  `none` when the mapping file exists but is unreadable (the
unguarded `json.load` raises); a missing mapping file leaves the CSVs
unchanged. -/
def applyUpdateCsv (st : SysState) : Option SysState :=
  match st.mappingFile with
  | some none => none
  | none => some st
  | some (some m) =>
    some { st with setsCsv := st.setsCsv.map (update_set_row m),
                   minifigsCsv := st.minifigsCsv.map (update_fig_row m) }

/-- The argparse namespace consumed by `extract.main` (the fields it reads). -/
structure Args where
  extract_only : Bool
  process_images : Bool
  update_csv : Bool
  limit : Option Nat
  minifigs_only : Bool
  test : Bool
  use_proxies : Bool
  start_index : Nat
  batch_size : Nat
  rebuild_mapping : Bool
  force_upload : Bool
  test_proxy : Bool
  force_own_ip : Bool
  dry_run : Bool
  validate_urls : Bool
  validate_all : Bool
  verify_r2 : Bool
  cleanup_local : Bool
deriving DecidableEq

/-- The orchestrator configuration extracted from the args
(extract.py lines 1598-1604). -/
def cfgOf (a : Args) : Cfg :=
  { minifigsOnly := a.minifigs_only, dryRun := a.dry_run, limit := a.limit,
    startIndex := a.start_index, batchSize := a.batch_size }

/-- `ProxyManager.__init__` via `extract.main` line 1557: proxies are loaded
from the proxies file (plus Oxylabs endpoints, all part of `Env.proxyList`)
only when proxy use is enabled. -/
def initPM (env : Env) (a : Args) : PM :=
  { proxies := if a.use_proxies then env.proxyList else [],
    working := [], failedMap := [],
    useProxies := a.use_proxies, forceOwnIp := a.force_own_ip, currentIndex := 0 }

/-- `extract.main` (extract.py lines 1529-1616) on the modelled state.
`none` models an uncaught exception aborting the run; the only such
exception in the modelled paths is `json.load` on an unreadable mapping
file.  The early-return actions that do not touch the modelled state
(`test_proxy`, `test`, `validate_urls`, `verify_r2`, `cleanup_local`, and
the .gz extraction) leave it unchanged. -/
def runMain (env : Env) (a : Args) (st : SysState) : Option SysState :=
  if a.test_proxy then some st
  else if a.test then some st
  else if a.validate_urls then some st
  else if a.rebuild_mapping then
    match st.mappingFile with
    | some none => none
    | mf =>
      let m2 := rebuild_image_mapping env a.force_upload (mappingOf mf)
      applyUpdateCsv { st with mappingFile := some (some m2) }
  else if a.verify_r2 then some st
  else if a.cleanup_local && !a.verify_r2 then some st
  else
    let runProcess := a.process_images ||
      (!a.extract_only && !a.update_csv && !a.test && !a.rebuild_mapping &&
       !a.validate_urls && !a.verify_r2 && !a.cleanup_local)
    if runProcess then
      match st.mappingFile with
      | some none => none
      | mf =>
        let r := process_image_urls env (cfgOf a) st.setsCsv st.minifigsCsv
          (mappingOf mf) (initPM env a)
        let st1 : SysState :=
          { st with mappingFile := some (some r.final.mapping),
                    failLog := st.failLog ++ r.final.failures,
                    fetchLog := st.fetchLog ++ r.final.fetchLog,
                    uploadLog := st.uploadLog ++ r.final.uploadLog }
        match (if !a.update_csv then applyUpdateCsv st1 else some st1) with
        | none => none
        | some st2 => if a.update_csv then applyUpdateCsv st2 else some st2
    else
      if a.update_csv then applyUpdateCsv st else some st

/-- The args object built by `continue_extraction`
(continue_extract.py lines 70-94). -/
def continueArgs (itemType : ItemClass) (startIndex bs : Nat)
    (useProxies updateCsv : Bool) : Args :=
  { extract_only := false, process_images := false, update_csv := updateCsv,
    limit := none,
    minifigs_only := (match itemType with | .minifigs => true | .sets => false),
    test := false, use_proxies := useProxies,
    start_index := startIndex, batch_size := bs,
    rebuild_mapping := false, force_upload := false, test_proxy := false,
    force_own_ip := false, dry_run := false, validate_urls := false,
    validate_all := false, verify_r2 := false, cleanup_local := false }

/-- `continue_extraction` (continue_extract.py lines 49-105): load the
progress, run `extract.main` with the derived args, then advance the
initially-loaded progress by the batch size and save it.  If the inner run
raises, the progress update is never reached. -/
def continue_extraction_run (env : Env) (itemType : ItemClass) (bs : Nat)
    (useProxies updateCsv : Bool) (st : SysState) : Option SysState :=
  let p := load_progress st.progressFile
  let a := continueArgs itemType (p.lastIdx itemType) bs useProxies updateCsv
  match runMain env a st with
  | none => none
  | some st2 =>
    some { st2 with progressFile := some (some (advanceProgress p itemType bs)) }

/-! ## Operation sequences over the mapping ledger (for the at-most-one
mapping invariant). -/

/-- One ledger-touching operation: a `process_image_urls` run (with its own
environment, configuration, catalog rows and proxy state) or a
`rebuild_image_mapping` run. -/
inductive LedgerOp
  | process (env : Env) (cfg : Cfg) (setRows : List SetRow)
      (minifigRows : List MinifigRow) (pm : PM)
  | rebuild (env : Env) (force : Bool)

/-- The effect of one operation on the mapping ledger. -/
def applyOp (m : Mapping) : LedgerOp → Mapping
  | .process env cfg s f pm => (process_image_urls env cfg s f m pm).final.mapping
  | .rebuild env force => rebuild_image_mapping env force m

/-- All ledger states reached while executing a sequence of operations,
including the initial one. -/
def opStates (m : Mapping) : List LedgerOp → List Mapping
  | [] => [m]
  | op :: ops => m :: opStates (applyOp m op) ops

/-- The final ledger state after a sequence of operations. -/
def applyOps (m : Mapping) (ops : List LedgerOp) : Mapping :=
  ops.foldl applyOp m

/-! ## Concrete fixtures used by the witness theorems -/

/-- A benign concrete environment. -/
def envW : Env :=
  { themeName := fun _ => "icons",
    fileExists := fun _ => false,
    attempt := fun _ _ => AttemptOutcome.ok,
    hasCredentials := true,
    storeAccepts := fun _ => true,
    publicUrl := "https://images.bricksdeal.com",
    now := 0,
    proxyList := [],
    imageFiles := [],
    rebuildCands := fun _ _ => [] }

/-- The environment of a run whose object-store credentials are missing and
whose image files are already present locally. -/
def envNoCredsW : Env :=
  { envW with hasCredentials := false, fileExists := fun _ => true }

/-- A concrete sets.csv row. -/
def rowA : SetRow :=
  { set_num := "10353-1", name := "Tiny Plants", theme_id := "1",
    img_url := "https://cdn.rebrickable.com/media/sets/10353-1.jpg" }

/-- A second concrete sets.csv row. -/
def rowB : SetRow :=
  { set_num := "75192-1", name := "Millennium Falcon", theme_id := "2",
    img_url := "https://cdn.rebrickable.com/media/sets/75192-1.jpg" }

/-- A default orchestrator configuration: no limit, no batch window. -/
def cfgW : Cfg :=
  { minifigsOnly := false, dryRun := false, limit := none,
    startIndex := 0, batchSize := 0 }

/-- A proxy manager with proxy use disabled. -/
def pmOffW : PM :=
  { proxies := [], working := [], failedMap := [], useProxies := false,
    forceOwnIp := false, currentIndex := 0 }

/-- A proxy manager with proxy use enabled but an empty pool and no
direct-connection override. -/
def pmEmptyPoolW : PM :=
  { proxies := [], working := [], failedMap := [], useProxies := true,
    forceOwnIp := false, currentIndex := 0 }

/-- A mapping that already contains `rowA`'s source URL. -/
def mSeenW : Mapping :=
  [("https://cdn.rebrickable.com/media/sets/10353-1.jpg",
    some "https://images.bricksdeal.com/catalog/set/seen.jpg")]

/-- Args equivalent to `--process-images` with local files present. -/
def argsProcessW : Args :=
  { extract_only := false, process_images := true, update_csv := false,
    limit := none, minifigs_only := false, test := false, use_proxies := false,
    start_index := 0, batch_size := 0, rebuild_mapping := false,
    force_upload := false, test_proxy := false, force_own_ip := true,
    dry_run := false, validate_urls := false, validate_all := false,
    verify_r2 := false, cleanup_local := false }

/-- A system state with one catalog row, an empty (readable) mapping file and
no progress file. -/
def stC5W : SysState :=
  { mappingFile := some (some []), setsCsv := [rowA], minifigsCsv := [],
    progressFile := none, failLog := [], fetchLog := [], uploadLog := [] }

/-- A system state with empty catalogs and no durable files at all. -/
def stEmptyW : SysState :=
  { mappingFile := none, setsCsv := [], minifigsCsv := [],
    progressFile := none, failLog := [], fetchLog := [], uploadLog := [] }

/-- The failure-log length of an optional final state (0 when the run
aborted). -/
def failLogLen : Option SysState → Nat
  | none => 0
  | some st => st.failLog.length

/-- A minifig row whose source URL is already mapped in `mSeenW`. -/
def figW : MinifigRow :=
  { fig_num := "fig-000123", name := "Darth Vader",
    img_url := "https://cdn.rebrickable.com/media/sets/10353-1.jpg" }

/-- A minifig row with an unmapped source URL. -/
def figNoW : MinifigRow :=
  { fig_num := "fig-000999", name := "Chewbacca",
    img_url := "https://cdn.rebrickable.com/media/sets/fig-000999.jpg" }

/-- A system state whose mapping file holds `mSeenW`. -/
def stC9W : SysState :=
  { mappingFile := some (some mSeenW), setsCsv := [rowA, rowB],
    minifigsCsv := [figW], progressFile := none, failLog := [],
    fetchLog := [], uploadLog := [] }

/-- The state after CSV propagation over `stC9W`. -/
def stC9ResW : SysState := (applyUpdateCsv stC9W).getD stEmptyW

/-- The state after a `continue_extraction` run (batch size 5, minifigs,
CSV updating enabled) over the empty state. -/
def stC4ResW : SysState :=
  (continue_extraction_run envW ItemClass.minifigs 5 false true stEmptyW).getD stEmptyW

/-- The state after a `continue_extraction` run (batch size 3, sets,
CSV updating enabled) over `stC9W`. -/
def stC10ResW : SysState :=
  (continue_extraction_run envW ItemClass.sets 3 false true stC9W).getD stEmptyW

/-! ## Helper lemmas -/

theorem getVal_minsert (m : Mapping) (k : String) (v : Option String) (key : String) :
    getVal (minsert m k v) key = if k = key then some v else getVal m key := by
  induction m with
  | nil =>
    by_cases h : k = key <;> simp [minsert, getVal, h]
  | cons kv rest ih =>
    obtain ⟨k0, v0⟩ := kv
    by_cases h0 : k0 = k
    · subst h0
      by_cases h : k0 = key <;> simp [minsert, getVal, h]
    · by_cases h : k0 = key
      · subst h
        have hk : ¬ k = k0 := fun he => h0 he.symm
        simp [minsert, getVal, h0, hk]
      · simp [minsert, getVal, h0, h, ih]

theorem countOccur_append (u : String) (a b : List String) :
    countOccur u (a ++ b) = countOccur u a + countOccur u b := by
  induction a with
  | nil => simp [countOccur]
  | cons x rest ih => simp [countOccur, ih]; omega

theorem countOccur_all_ne (u : String) (l : List String)
    (h : ∀ x ∈ l, x ≠ u) : countOccur u l = 0 := by
  induction l with
  | nil => rfl
  | cons x rest ih =>
    have hx : x ≠ u := h x (by simp)
    simp [countOccur, hx, ih (fun y hy => h y (by simp [hy]))]

theorem download_attempts_reqs (env : Env) (url : String) :
    ∀ (pm : PM) (retry fuel : Nat),
      ∀ x ∈ (download_attempts env url pm retry fuel).2.2, x = url := by
  intro pm retry fuel
  induction fuel generalizing pm retry with
  | zero => simp [download_attempts]
  | succ n ih =>
    intro x hx
    simp only [download_attempts] at hx
    set g : Option (Option String) × PM :=
      if pm.useProxies then
        let gp := get_proxy pm env.now
        match gp.1 with
        | some p => (some (some p), gp.2)
        | none => (if gp.2.forceOwnIp then some none else none, gp.2)
      else
        (if pm.forceOwnIp then some none else none, pm) with hg
    match hg1 : g.1 with
    | none => simp [hg1] at hx
    | some proxyOpt =>
      rw [hg1] at hx
      cases ha : env.attempt url retry <;> simp [ha] at hx <;>
        first
          | exact hx
          | (rcases hx with hx | hx
             · exact hx
             · exact ih _ _ x hx)

theorem processTask_keeps (env : Env) (cfg : Cfg) (t : ImgTask) (st : BatchState)
    (u : String) (v : Option String) (h : getVal st.mapping u = some v) :
    getVal (processTask env cfg st t).mapping u = some v
    ∧ countOccur u (processTask env cfg st t).fetchLog = countOccur u st.fetchLog
    ∧ countOccur u (processTask env cfg st t).uploadLog = countOccur u st.uploadLog := by
  by_cases hmem : (getVal st.mapping t.url).isSome
  · simp [processTask, hmem, h]
  · have hne : t.url ≠ u := by
      intro he
      rw [he, h] at hmem
      simp at hmem
    have hmem' : (getVal st.mapping t.url).isSome = false := by simpa using hmem
    simp only [processTask, hmem', Bool.false_eq_true, if_false]
    by_cases hdry : cfg.dryRun
    · simp [hdry, getVal_minsert, hne, h]
    · simp only [hdry, Bool.false_eq_true, if_false]
      set d := (if env.fileExists ("output/catalog-images/" ++ taskFilename env t)
        then (true, st.pm, ([] : List String))
        else download_and_optimize_image env t.url st.pm) with hd
      have hreq : countOccur u d.2.2 = 0 := by
        apply countOccur_all_ne
        intro x hx
        rw [hd] at hx
        have hxu : x = t.url := by
          revert hx
          split
          · simp
          · exact fun hx => download_attempts_reqs env t.url st.pm 0 3 x hx
        rw [hxu]
        exact hne
      by_cases hfx : d.1
      · cases hup : upload_to_cloudflare_r2 env (taskObjectKey t (taskFilename env t)) with
        | some cfUrl =>
          simp [hfx, hup, getVal_minsert, hne, h, countOccur_append, hreq, countOccur, hne]
        | none =>
          simp [hfx, hup, h, countOccur_append, hreq, countOccur, hne]
      · simp only [Bool.not_eq_true] at hfx
        simp [hfx, h, countOccur_append, hreq, countOccur, hne]

theorem foldl_keeps (env : Env) (cfg : Cfg) (ts : List ImgTask) (st : BatchState)
    (u : String) (v : Option String) (h1 : getVal st.mapping u = some v) :
    getVal (ts.foldl (processTask env cfg) st).mapping u = some v
    ∧ countOccur u (ts.foldl (processTask env cfg) st).fetchLog = countOccur u st.fetchLog
    ∧ countOccur u (ts.foldl (processTask env cfg) st).uploadLog = countOccur u st.uploadLog := by
  induction ts generalizing st with
  | nil => exact ⟨h1, rfl, rfl⟩
  | cons t rest ih =>
    obtain ⟨a, b, c⟩ := processTask_keeps env cfg t st u v h1
    obtain ⟨a2, b2, c2⟩ := ih (processTask env cfg st t) a
    exact ⟨a2, b2.trans b, c2.trans c⟩

/-! ## Claim theorems -/

/-- Claim C1: a source URL already present in the mapping cache when the
batch starts is never fetched and never uploaded by `process_image_urls`
(zero entries for it in the fetch and upload logs), and its mapping entry is
unchanged at the end of the run. -/
theorem C1_idempotent (env : Env) (cfg : Cfg) (setRows : List SetRow)
    (minifigRows : List MinifigRow) (m : Mapping) (pm : PM) (u : String)
    (v : Option String) (h : getVal m u = some v) :
    getVal (process_image_urls env cfg setRows minifigRows m pm).final.mapping u = some v
    ∧ countOccur u (process_image_urls env cfg setRows minifigRows m pm).final.fetchLog = 0
    ∧ countOccur u (process_image_urls env cfg setRows minifigRows m pm).final.uploadLog = 0 := by
  have hf := foldl_keeps env cfg (buildWindow cfg setRows minifigRows) (initBatchState m pm) u v h
  simpa [process_image_urls, initBatchState, countOccur] using hf

/-- Witness for C1 at a concrete already-mapped URL. -/
theorem C1_witness :
    getVal (process_image_urls envW cfgW [rowA] [] mSeenW pmOffW).final.mapping
        "https://cdn.rebrickable.com/media/sets/10353-1.jpg"
      = some (some "https://images.bricksdeal.com/catalog/set/seen.jpg") :=
  (C1_idempotent envW cfgW [rowA] [] mSeenW pmOffW
    "https://cdn.rebrickable.com/media/sets/10353-1.jpg"
    (some "https://images.bricksdeal.com/catalog/set/seen.jpg") rfl).1

theorem tryInsertFirst_keeps (m : Mapping) (rev : List (Option String × String))
    (cf : Option String) (cands : List String) (u : String) (v : Option String)
    (h : getVal m u = some v) :
    getVal (tryInsertFirst m rev cf cands).1 u = some v := by
  induction cands with
  | nil => exact h
  | cons orig rest ih =>
    simp only [tryInsertFirst]
    split
    · rename_i hcond
      have horig : orig ≠ u := by
        intro he
        rw [he, h] at hcond
        simp at hcond
      simp [getVal_minsert, horig, h]
    · exact ih

theorem rebuild_file_step_keeps (env : Env) (force : Bool)
    (acc : Mapping × List (Option String × String)) (file : String)
    (u : String) (v : Option String) (h : getVal acc.1 u = some v) :
    getVal (rebuild_file_step env force acc file).1 u = some v := by
  simp only [rebuild_file_step]
  split
  · split
    · exact h
    · exact tryInsertFirst_keeps _ _ _ _ u v h
  · split
    · exact h
    · exact tryInsertFirst_keeps _ _ _ _ u v h

theorem rebuild_fold_keeps (env : Env) (force : Bool) (files : List String)
    (acc : Mapping × List (Option String × String)) (u : String) (v : Option String)
    (h : getVal acc.1 u = some v) :
    getVal (files.foldl (rebuild_file_step env force) acc).1 u = some v := by
  induction files generalizing acc with
  | nil => exact h
  | cons f rest ih =>
    exact ih (rebuild_file_step env force acc f) (rebuild_file_step_keeps env force acc f u v h)

theorem rebuild_keeps (env : Env) (force : Bool) (m : Mapping) (u : String)
    (v : Option String) (h : getVal m u = some v) :
    getVal (rebuild_image_mapping env force m) u = some v :=
  rebuild_fold_keeps env force env.imageFiles (m, buildReverse m) u v h

theorem applyOp_keeps (m : Mapping) (op : LedgerOp) (u : String) (v : Option String)
    (h : getVal m u = some v) : getVal (applyOp m op) u = some v := by
  cases op with
  | process env cfg s f pm =>
    exact (C1_idempotent env cfg s f m pm u v h).1
  | rebuild env force => exact rebuild_keeps env force m u v h

theorem applyOps_keeps (m : Mapping) (ops : List LedgerOp) (u : String) (v : Option String)
    (h : getVal m u = some v) : getVal (applyOps m ops) u = some v := by
  induction ops generalizing m with
  | nil => exact h
  | cons op rest ih => exact ih (applyOp m op) (applyOp_keeps m op u v h)

theorem mem_opStates_keeps (m : Mapping) (ops : List LedgerOp) (s : Mapping)
    (hs : s ∈ opStates m ops) (u : String) (v : Option String)
    (h : getVal s u = some v) : getVal (applyOps m ops) u = some v := by
  induction ops generalizing m with
  | nil =>
    simp [opStates] at hs
    subst hs
    exact h
  | cons op rest ih =>
    simp only [opStates, List.mem_cons] at hs
    rcases hs with hs | hs
    · subst hs
      exact applyOps_keeps s (op :: rest) u v h
    · exact ih (applyOp m op) hs

/-- Claim C2: over any sequence of `process_image_urls` and
`rebuild_image_mapping` operations, at most one asset value is ever
associated with a given source URL — any two values observed for it in any
intermediate ledger state are equal (entries, once created, are never
overwritten: every write in both operations is guarded by an absence
check). -/
theorem C2_at_most_one_mapping (m : Mapping) (ops : List LedgerOp) (u : String)
    (v w : Option String)
    (hv : ∃ s ∈ opStates m ops, getVal s u = some v)
    (hw : ∃ s ∈ opStates m ops, getVal s u = some w) : v = w := by
  obtain ⟨s1, hs1, h1⟩ := hv
  obtain ⟨s2, hs2, h2⟩ := hw
  have e1 := mem_opStates_keeps m ops s1 hs1 u v h1
  have e2 := mem_opStates_keeps m ops s2 hs2 u w h2
  rw [e1] at e2
  exact Option.some.inj e2

/-- Witness for C2 on a concrete ledger and a concrete run. -/
theorem C2_witness :
    (some "https://images.bricksdeal.com/catalog/set/seen.jpg" : Option String)
      = some "https://images.bricksdeal.com/catalog/set/seen.jpg" :=
  C2_at_most_one_mapping mSeenW [LedgerOp.process envW cfgW [rowA] [] pmOffW]
    "https://cdn.rebrickable.com/media/sets/10353-1.jpg"
    (some "https://images.bricksdeal.com/catalog/set/seen.jpg")
    (some "https://images.bricksdeal.com/catalog/set/seen.jpg")
    ⟨mSeenW, by simp [opStates], rfl⟩
    ⟨mSeenW, by simp [opStates], rfl⟩

/-- Claim C3: the key deriver is deterministic (identical arguments give
identical keys), and the occurrence-index suffixes for indices 0 through 5,
as generated by `test_multiple_images`, are exactly `""`, `"-alt"`,
`"-back"`, `"-side"`, `"-view4"`, `"-view5"`; the six keys derived for the
example set differ only by those suffixes before the extension. -/
theorem C3_key_deriver_determinism_and_suffixes :
    (∀ u1 u2 p1 p2 n1 n2 : String, u1 = u2 → p1 = p2 → n1 = n2 →
      create_seo_friendly_filename u1 p1 n1 = create_seo_friendly_filename u2 p2 n2)
    ∧ (List.range 6).map view_suffix = ["", "-alt", "-back", "-side", "-view4", "-view5"]
    ∧ (List.range 6).map (test_set_filename "Star Wars" "Millennium Falcon" "75192-1")
        = ["", "-alt", "-back", "-side", "-view4", "-view5"].map
            (fun s => "lego-star-wars-millennium-falcon-75192-1" ++ s ++ ".jpg") := by
  refine ⟨?_, ?_, ?_⟩
  · intro u1 u2 p1 p2 n1 n2 h1 h2 h3
    rw [h1, h2, h3]
  · decide
  · decide

/-- Witness for C3's determinism clause at concrete arguments. -/
theorem C3_witness :
    create_seo_friendly_filename "https://cdn.rebrickable.com/media/sets/10353-1.jpg"
        "lego-icons-" "Tiny Plants"
      = create_seo_friendly_filename "https://cdn.rebrickable.com/media/sets/10353-1.jpg"
        "lego-icons-" "Tiny Plants" :=
  C3_key_deriver_determinism_and_suffixes.1 _ _ _ _ _ _ rfl rfl rfl

/-- Claim C8 counterexample: two distinct source URLs with distinct paths and
an empty display name derive the same key.  `create_seo_friendly_filename`
has no hash-of-path fallback: with an empty name the key is the prefix plus
the extension, so keys for distinct such items collide. -/
theorem C8_counterexample :
    create_seo_friendly_filename "https://cdn.rebrickable.com/media/sets/10353-1.jpg"
        "lego-icons-" ""
      = create_seo_friendly_filename "https://cdn.rebrickable.com/media/sets/75192-1.jpg"
        "lego-icons-" ""
    ∧ ("https://cdn.rebrickable.com/media/sets/10353-1.jpg" : String)
      ≠ "https://cdn.rebrickable.com/media/sets/75192-1.jpg" := by
  constructor
  · decide
  · decide

/-- Claim C8 as amended: when the display name is empty the derived key is
the prefix followed by the URL extension (no name component and no hash of
the URL path); when the name is nonempty but cleans to the empty slug
(entirely non-alphanumeric), the key is the prefix, a hyphen for the empty
name component, and the extension.  In both cases the URL path influences
the key only through its extension. -/
theorem C8_amended (url pfx name : String) (hn : name ≠ "")
    (hc : clean_name name = "") :
    create_seo_friendly_filename url pfx "" = pfx ++ url_extension url
    ∧ create_seo_friendly_filename url pfx name
        = (if pfx = "" then "" else pfx ++ "-") ++ url_extension url := by
  constructor
  · by_cases hp : pfx = ""
    · subst hp
      simp [create_seo_friendly_filename, joinHyphen]
    · simp [create_seo_friendly_filename, hp, joinHyphen]
  · by_cases hp : pfx = ""
    · subst hp
      simp [create_seo_friendly_filename, hn, hc, joinHyphen]
    · simp [create_seo_friendly_filename, hp, hn, hc, joinHyphen]

/-- Witness for C8's amended statement on a concrete non-alphanumeric name. -/
theorem C8_witness :
    create_seo_friendly_filename "https://cdn.rebrickable.com/media/sets/10353-1.jpg"
        "lego-icons-" ""
      = "lego-icons-" ++ url_extension "https://cdn.rebrickable.com/media/sets/10353-1.jpg" :=
  (C8_amended "https://cdn.rebrickable.com/media/sets/10353-1.jpg" "lego-icons-" "!!!"
    (by decide) (by decide)).1

/-- Claim C7: the task window iterated by `process_image_urls` does not
depend on the mapping cache (or on any other run state): it is exactly the
`start_index`/`batch_size` slice of the (limited) stable source-order scan of
the catalog rows.  Already-mapped URLs are skipped inside the loop, after
windowing, so the same window always selects the same underlying catalog
rows even as the mapping grows. -/
theorem C7_window_over_scan (env1 env2 : Env) (cfg : Cfg) (setRows : List SetRow)
    (minifigRows : List MinifigRow) (m1 m2 : Mapping) (pm1 pm2 : PM) :
    (process_image_urls env1 cfg setRows minifigRows m1 pm1).window
      = (process_image_urls env2 cfg setRows minifigRows m2 pm2).window
    ∧ (process_image_urls env1 cfg setRows minifigRows m1 pm1).window
      = applyBatch cfg.startIndex cfg.batchSize
          (applyLimit cfg.limit (allTasks cfg setRows minifigRows)) :=
  ⟨rfl, rfl⟩

theorem get_proxy_empty (pm : PM) (now : Nat) (hpx : pm.proxies = []) :
    get_proxy pm now = (none, pm) := by
  simp [get_proxy, hpx]

theorem download_empty_pool (env : Env) (url : String) (pm : PM)
    (hup : pm.useProxies = true) (hpx : pm.proxies = []) (hfo : pm.forceOwnIp = false) :
    download_and_optimize_image env url pm = (false, pm, []) := by
  simp [download_and_optimize_image, download_attempts, hup,
    get_proxy_empty pm env.now hpx, hfo]

theorem processTask_empty_pool (env : Env) (cfg : Cfg) (t : ImgTask) (st : BatchState)
    (hup : st.pm.useProxies = true) (hpx : st.pm.proxies = [])
    (hfo : st.pm.forceOwnIp = false)
    (hfe : ∀ p, env.fileExists p = false) (hdry : cfg.dryRun = false)
    (hm : getVal st.mapping t.url = none) :
    processTask env cfg st t
      = { st with failed := st.failed + 1,
                  failures := st.failures ++ [⟨t.url, "Failed to download/process"⟩] } := by
  simp only [processTask, hm, Option.isSome_none, Bool.false_eq_true, if_false, hdry]
  rw [hfe, download_empty_pool env t.url st.pm hup hpx hfo]
  simp

theorem foldl_empty_pool (env : Env) (cfg : Cfg) (ts : List ImgTask) (st : BatchState)
    (hup : st.pm.useProxies = true) (hpx : st.pm.proxies = [])
    (hfo : st.pm.forceOwnIp = false)
    (hfe : ∀ p, env.fileExists p = false) (hdry : cfg.dryRun = false)
    (hts : ∀ t ∈ ts, getVal st.mapping t.url = none) :
    (ts.foldl (processTask env cfg) st).mapping = st.mapping
    ∧ (ts.foldl (processTask env cfg) st).pm = st.pm
    ∧ (ts.foldl (processTask env cfg) st).fetchLog = st.fetchLog
    ∧ (ts.foldl (processTask env cfg) st).failures.length
        = st.failures.length + ts.length := by
  induction ts generalizing st with
  | nil => simp
  | cons t rest ih =>
    have hstep := processTask_empty_pool env cfg t st hup hpx hfo hfe hdry (hts t (by simp))
    rw [List.foldl_cons, hstep]
    have hrest := ih
      { st with failed := st.failed + 1,
                failures := st.failures ++ [⟨t.url, "Failed to download/process"⟩] }
      hup hpx hfo (fun t2 h2 => hts t2 (by simp [h2]))
    obtain ⟨a, b, c, d⟩ := hrest
    refine ⟨a, b, c, ?_⟩
    rw [d]
    simp
    omega

/-- Claim C6: with proxy use enabled, an empty proxy pool and no
direct-connection override, `get_proxy` returns none (not an error), every
task in the window is skipped with no network request, the mapping cache
gains no entries, and one failure record is appended per task in the
window. -/
theorem C6_empty_pool_fail_closed (env : Env) (cfg : Cfg) (setRows : List SetRow)
    (minifigRows : List MinifigRow) (m : Mapping) (pm : PM)
    (hup : pm.useProxies = true) (hpx : pm.proxies = []) (hfo : pm.forceOwnIp = false)
    (hfe : ∀ p, env.fileExists p = false) (hdry : cfg.dryRun = false)
    (hm : ∀ t ∈ buildWindow cfg setRows minifigRows, getVal m t.url = none) :
    (get_proxy pm env.now).1 = none
    ∧ (process_image_urls env cfg setRows minifigRows m pm).final.mapping = m
    ∧ (process_image_urls env cfg setRows minifigRows m pm).final.fetchLog = []
    ∧ (process_image_urls env cfg setRows minifigRows m pm).final.failures.length
        = (process_image_urls env cfg setRows minifigRows m pm).window.length := by
  have hf := foldl_empty_pool env cfg (buildWindow cfg setRows minifigRows)
    (initBatchState m pm) hup hpx hfo hfe hdry hm
  obtain ⟨a, b, c, d⟩ := hf
  refine ⟨by rw [get_proxy_empty pm env.now hpx], a, c, ?_⟩
  simpa [process_image_urls, initBatchState] using d

/-- Witness for C6: two catalog rows, empty pool, nothing mapped. -/
theorem C6_witness :
    (process_image_urls envW cfgW [rowA, rowB] [] [] pmEmptyPoolW).final.failures.length
      = (process_image_urls envW cfgW [rowA, rowB] [] [] pmEmptyPoolW).window.length :=
  (C6_empty_pool_fail_closed envW cfgW [rowA, rowB] [] [] pmEmptyPoolW rfl rfl rfl
    (fun _ => rfl) rfl (by decide)).2.2.2

theorem applyUpdateCsv_fields (st st2 : SysState) (h : applyUpdateCsv st = some st2) :
    st2.mappingFile = st.mappingFile ∧ st2.progressFile = st.progressFile
    ∧ st2.failLog = st.failLog ∧ st2.fetchLog = st.fetchLog
    ∧ st2.uploadLog = st.uploadLog := by
  unfold applyUpdateCsv at h
  rcases hm : st.mappingFile with _ | om
  · rw [hm] at h
    simp only [Option.some.injEq] at h
    subst h
    exact ⟨hm.symm ▸ rfl, rfl, rfl, rfl, rfl⟩
  · rcases om with _ | mm
    · rw [hm] at h
      simp at h
    · rw [hm] at h
      simp only [Option.some.injEq] at h
      subst h
      exact ⟨hm.symm ▸ rfl, rfl, rfl, rfl, rfl⟩

theorem applyUpdateCsv_isSome (st : SysState) (h : st.mappingFile ≠ some none) :
    (applyUpdateCsv st).isSome = true := by
  rcases hm : st.mappingFile with _ | om
  · simp [applyUpdateCsv, hm]
  · rcases om with _ | mm
    · exact absurd hm h
    · simp [applyUpdateCsv, hm]

/-- Claim C9: propagation rewrites a mapped row's image field to the mapped
asset URL and leaves every other field untouched, passes unmapped rows
through identical, writes as many rows as it read, and replaces each CSV
wholesale with the rewritten row list (the modelled `os.replace` swap). -/
theorem C9_propagation (m : Mapping) (r rNo : SetRow) (f fNo : MinifigRow)
    (y z : String) (rows : List SetRow) (st st2 : SysState)
    (hy : getVal m r.img_url = some (some y))
    (hn : getVal m rNo.img_url = none)
    (hfy : getVal m f.img_url = some (some z))
    (hfn : getVal m fNo.img_url = none)
    (hl : applyUpdateCsv st = some st2) :
    update_set_row m r = { r with img_url := y }
    ∧ update_set_row m rNo = rNo
    ∧ update_fig_row m f = { f with img_url := z }
    ∧ update_fig_row m fNo = fNo
    ∧ (rows.map (update_set_row m)).length = rows.length
    ∧ st2.setsCsv = st.setsCsv.map (update_set_row (mappingOf st.mappingFile))
    ∧ st2.minifigsCsv = st.minifigsCsv.map (update_fig_row (mappingOf st.mappingFile)) := by
  refine ⟨by simp [update_set_row, hy], by simp [update_set_row, hn],
          by simp [update_fig_row, hfy], by simp [update_fig_row, hfn],
          by simp, ?_, ?_⟩
  all_goals
    unfold applyUpdateCsv at hl
    rcases hm : st.mappingFile with _ | om
  · rw [hm] at hl
    simp only [Option.some.injEq] at hl
    subst hl
    have hid : update_set_row [] = id := funext (fun rr => rfl)
    simp [mappingOf, hid]
  · rcases om with _ | mm
    · rw [hm] at hl; simp at hl
    · rw [hm] at hl
      simp only [Option.some.injEq] at hl
      subst hl
      simp [mappingOf]
  · rw [hm] at hl
    simp only [Option.some.injEq] at hl
    subst hl
    have hid : update_fig_row [] = id := funext (fun rr => rfl)
    simp [mappingOf, hid]
  · rcases om with _ | mm
    · rw [hm] at hl; simp at hl
    · rw [hm] at hl
      simp only [Option.some.injEq] at hl
      subst hl
      simp [mappingOf]

/-- Witness for C9 on concrete rows and a concrete state. -/
theorem C9_witness :
    update_set_row mSeenW rowA
      = { rowA with img_url := "https://images.bricksdeal.com/catalog/set/seen.jpg" } :=
  (C9_propagation mSeenW rowA rowB figW figNoW
    "https://images.bricksdeal.com/catalog/set/seen.jpg"
    "https://images.bricksdeal.com/catalog/set/seen.jpg"
    [rowA, rowB] stC9W stC9ResW rfl rfl rfl rfl rfl).1

/-- Claim C4: when `continue_extraction` completes, the item class's
checkpoint cursor (and its running total) has advanced by exactly the
requested batch size, whatever the inner extraction run did with the window
(every environment, catalog, proxy setting and outcome is quantified over;
the progress update at the end of `continue_extraction` uses only the
initially-loaded progress and the batch size). -/
theorem C4_checkpoint_advances_by_batch (env : Env) (c : ItemClass) (bs : Nat)
    (useProxies updateCsv : Bool) (st st2 : SysState)
    (h : continue_extraction_run env c bs useProxies updateCsv st = some st2) :
    (load_progress st2.progressFile).lastIdx c
      = (load_progress st.progressFile).lastIdx c + bs
    ∧ (load_progress st2.progressFile).totalIdx c
      = (load_progress st.progressFile).totalIdx c + bs := by
  simp only [continue_extraction_run] at h
  rcases hr : runMain env
      (continueArgs c ((load_progress st.progressFile).lastIdx c) bs useProxies updateCsv)
      st with _ | st3
  · rw [hr] at h
    simp at h
  · rw [hr] at h
    simp only [Option.some.injEq] at h
    subst h
    cases c <;>
      simp [load_progress, advanceProgress, Progress.lastIdx, Progress.totalIdx]

/-- Witness for C4 on the empty state: the minifigs cursor goes from 0 to 5. -/
theorem C4_witness :
    (load_progress stC4ResW.progressFile).lastIdx ItemClass.minifigs
      = (load_progress stEmptyW.progressFile).lastIdx ItemClass.minifigs + 5 :=
  (C4_checkpoint_advances_by_batch envW ItemClass.minifigs 5 false true stEmptyW
    stC4ResW rfl).1

theorem runMain_continueArgs_true (env : Env) (c : ItemClass) (si bs : Nat)
    (useProxies : Bool) (st : SysState) :
    runMain env (continueArgs c si bs useProxies true) st = applyUpdateCsv st := by
  simp [runMain, continueArgs]

/-- Claim C10: a completed `continue_extraction` invocation with CSV updating
enabled (its default) never runs the image-processing step — the argument
combination it passes to `extract.main` (`process_images=False`,
`update_csv=True`) makes the dispatch condition false — so the fetch log,
upload log, failure log and mapping file are unchanged, yet the checkpoint
cursor still advances by the batch size: the rows of that window are skipped
without ever being attempted. -/
theorem C10_update_csv_skips_processing (env : Env) (c : ItemClass) (bs : Nat)
    (useProxies : Bool) (st st2 : SysState)
    (h : continue_extraction_run env c bs useProxies true st = some st2) :
    st2.fetchLog = st.fetchLog ∧ st2.uploadLog = st.uploadLog
    ∧ st2.mappingFile = st.mappingFile ∧ st2.failLog = st.failLog
    ∧ (load_progress st2.progressFile).lastIdx c
        = (load_progress st.progressFile).lastIdx c + bs := by
  simp only [continue_extraction_run, runMain_continueArgs_true] at h
  rcases ha : applyUpdateCsv st with _ | st3
  · rw [ha] at h
    simp at h
  · rw [ha] at h
    simp only [Option.some.injEq] at h
    subst h
    obtain ⟨hmf, _, hfl, hfe, hul⟩ := applyUpdateCsv_fields st st3 ha
    refine ⟨hfe, hul, hmf, hfl, ?_⟩
    cases c <;>
      simp [load_progress, advanceProgress, Progress.lastIdx]

/-- Witness for C10 on a concrete state with a nonempty mapping file. -/
theorem C10_witness :
    stC10ResW.mappingFile = stC9W.mappingFile
    ∧ (load_progress stC10ResW.progressFile).lastIdx ItemClass.sets
        = (load_progress stC9W.progressFile).lastIdx ItemClass.sets + 3 := by
  have hc := C10_update_csv_skips_processing envW ItemClass.sets 3 false stC9W
    stC10ResW rfl
  exact ⟨hc.2.2.1, hc.2.2.2.2⟩

/-- Claim C5 counterexample: with the object-store credentials missing
(`envNoCredsW`) a `--process-images` run over one catalog row is NOT fatal:
the run completes (does not abort) and converts the failed upload into
exactly one failure record, contradicting the claim that missing store
credentials are a configuration-level error fatal to the whole run.
(Likewise `load_progress` on an unreadable checkpoint file returns the
default progress instead of aborting.) -/
theorem C5_counterexample :
    (runMain envNoCredsW argsProcessW stC5W).isSome = true
    ∧ failLogLen (runMain envNoCredsW argsProcessW stC5W) = 1
    ∧ load_progress (some none) = defaultProgress := by
  refine ⟨by decide, by decide, rfl⟩

theorem runMain_isSome (env : Env) (a : Args) (st : SysState)
    (hmf : st.mappingFile ≠ some none) : (runMain env a st).isSome = true := by
  rcases hm : st.mappingFile with _ | om
  · unfold runMain
    cases h1 : a.test_proxy with
    | true => simp
    | false =>
    cases h2 : a.test with
    | true => simp
    | false =>
    cases h3 : a.validate_urls with
    | true => simp
    | false =>
    cases h4 : a.rebuild_mapping with
    | true =>
      simp only [Bool.false_eq_true, if_false, if_true, hm]
      exact applyUpdateCsv_isSome _ (by simp)
    | false =>
    cases h5 : a.verify_r2 with
    | true => simp
    | false =>
    cases h6 : a.cleanup_local with
    | true => simp
    | false =>
    cases h7 : a.process_images <;> cases h8 : a.update_csv <;>
      cases h9 : a.extract_only <;> simp [hm, applyUpdateCsv]
  · rcases om with _ | mm
    · exact absurd hm hmf
    · unfold runMain
      cases h1 : a.test_proxy with
      | true => simp
      | false =>
      cases h2 : a.test with
      | true => simp
      | false =>
      cases h3 : a.validate_urls with
      | true => simp
      | false =>
      cases h4 : a.rebuild_mapping with
      | true =>
        simp only [Bool.false_eq_true, if_false, if_true, hm]
        exact applyUpdateCsv_isSome _ (by simp)
      | false =>
      cases h5 : a.verify_r2 with
      | true => simp
      | false =>
      cases h6 : a.cleanup_local with
      | true => simp
      | false =>
      cases h7 : a.process_images <;> cases h8 : a.update_csv <;>
        cases h9 : a.extract_only <;> simp [hm, applyUpdateCsv]

/-- Claim C5 as amended: per-item errors never abort the run — whenever the
mapping-cache file is readable, `extract.main` completes, whatever the
environment does (failed fetches and uploads are converted to failure
records); missing store credentials make the upload return an error value
(`none`), not an exception; an unreadable checkpoint file falls back to the
default progress instead of aborting; the one fatal configuration error is
an unreadable mapping-cache file, which aborts a processing run. -/
theorem C5_amended (env : Env) (a : Args) (st : SysState) (k : String)
    (hmf : st.mappingFile ≠ some none) :
    (runMain env a st).isSome = true
    ∧ (env.hasCredentials = false → upload_to_cloudflare_r2 env k = none)
    ∧ load_progress (some none) = defaultProgress
    ∧ (a.test_proxy = false → a.test = false → a.validate_urls = false →
       a.rebuild_mapping = false → a.verify_r2 = false → a.cleanup_local = false →
       a.process_images = true →
       runMain env a { st with mappingFile := some none } = none) := by
  refine ⟨runMain_isSome env a st hmf, ?_, rfl, ?_⟩
  · intro hc
    simp [upload_to_cloudflare_r2, hc]
  · intro h1 h2 h3 h4 h5 h6 h7
    simp [runMain, h1, h2, h3, h4, h5, h6, h7]

/-- Witness for C5's amended statement: the credential-less run completes. -/
theorem C5_witness :
    (runMain envNoCredsW argsProcessW stC5W).isSome = true :=
  (C5_amended envNoCredsW argsProcessW stC5W "catalog/set/x.jpg" (by decide)).1
